import Mathlib

/-!
Shallow embedding of the deployment-orchestration core of the
lambda-deploy-tool repository (Python), together with theorems settling the
frozen claims about it.

Each definition is translated from a concrete function of the source tree:
 * `safeCallWithRetry`, `resourceExists`  — `lambda_deploy_tool/aws/__init__.py`
 * `waitForFunctionActive` / `...Updated` — `lambda_deploy_tool/aws/lambda_manager.py`
 * `validateLambdaParameters`, `deployFunction` — `lambda_deploy_tool/aws/lambda_manager.py`
 * `ensureBudgetWithNotifications` — `lambda_deploy_tool/aws/budget_manager.py`
 * `ensureLambdaRole` — `lambda_deploy_tool/aws/iam_manager.py`
 * `ensureSchedule` — `lambda_deploy_tool/aws/scheduler_manager.py`
 * `ensureRepository` — `lambda_deploy_tool/aws/ecr_manager.py`
 * `shouldSkipStep`, `runPipeline`, budget-step model — `lambda_deploy_tool/deployer.py`
 * `containerDeploymentSteps` — `lambda_deploy_tool/container_deployer.py`
 * `lambdaArn`, `roleArn`, `initializeAwsManagers` — `lambda_deploy_tool/config.py`,
   `lambda_deploy_tool/deployer.py`

Remote interaction is modelled by explicit oracles (outcome of each network
attempt) and by recording, in order, every network call attempted and every
delay slept.  Delays are rationals: the Python floats involved are only ever
multiplied by powers of two, which is exact, so ℚ is a faithful carrier.
-/

namespace LambdaDeploy

/-- Errors that can be raised by the embedded code.  `clientError` carries the
AWS error code of a `botocore.exceptions.ClientError`; `genericError` stands
for any other exception raised by an attempt.  The remaining constructors are
the Python exception classes the source raises itself. -/
inductive AwsError where
  | clientError (code : String) (msg : String)
  | genericError (msg : String)
  | valueError (msg : String)
  | timeoutError (msg : String)
  | attributeError (msg : String)
  | typeError (msg : String)
  | fileNotFoundError (msg : String)
  deriving DecidableEq, Repr

/-- Approximation of Python `str(e)` used where the source interpolates a
caught exception into a new message. -/
def msgOf : AwsError → String
  | .clientError code msg => "An error occurred (" ++ code ++ "): " ++ msg
  | .genericError m => m
  | .valueError m => m
  | .timeoutError m => m
  | .attributeError m => m
  | .typeError m => m
  | .fileNotFoundError m => m

/-- The `Configuration` part of a `get_function` response, as read by the
readiness polls in `lambda_manager.py`. -/
structure FunctionConfig where
  state : String
  stateReason : Option String
  lastUpdateStatus : String
  lastUpdateStatusReason : Option String
  deriving DecidableEq, Repr

/-- A value returned by a successful remote API call. -/
inductive RespVal where
  | getFunction (cfg : FunctionConfig)
  | functionResp (functionArn : String)
  | unitResp
  deriving DecidableEq, Repr

/-- Outcome of one real network attempt of an operation, supplied by an
oracle indexed by the 0-based attempt number. -/
inductive CallOutcome where
  | success (v : RespVal)
  | clientError (code : String) (msg : String)
  | genericError (msg : String)
  deriving DecidableEq, Repr

instance {ε α : Type} [DecidableEq ε] [DecidableEq α] : DecidableEq (Except ε α) := fun x y =>
  match x, y with
  | .ok a, .ok b =>
    if h : a = b then .isTrue (by rw [h]) else .isFalse (by simp [h])
  | .error a, .error b =>
    if h : a = b then .isTrue (by rw [h]) else .isFalse (by simp [h])
  | .ok _, .error _ => .isFalse (fun hc => Except.noConfusion hc)
  | .error _, .ok _ => .isFalse (fun hc => Except.noConfusion hc)

/-- Result of `safe_call_with_retry`: the returned value or raised error
(`Option RespVal` because the dry-run path returns Python `None`), the delays
slept in order, and the number of network attempts actually performed. -/
structure GatewayResult where
  result : Except AwsError (Option RespVal)
  sleeps : List ℚ
  attempts : Nat
  deriving DecidableEq, Repr

/-- `aws/__init__.py` line 70: error codes never retried. -/
def nonRetryableCodes : List String := ["AccessDenied", "ValidationError", "InvalidParameter"]

/-- `aws/__init__.py` line 101: error codes `resource_exists` treats as absent. -/
def notFoundCodes : List String := ["NoSuchEntity", "ResourceNotFoundException", "NotFoundException"]

/-- Falling off the `for` loop of `safe_call_with_retry` executes
`raise last_exception`; if no attempt ran, `last_exception` is `None` and
Python raises a `TypeError`. -/
def raiseLast : Option AwsError → AwsError
  | some e => e
  | none => .typeError "exceptions must derive from BaseException"

/-- The loop of `safe_call_with_retry` (`aws/__init__.py` lines 53-91).
`fuel` is the number of loop iterations still available, so the running
0-based `attempt` index equals `maxAttempts - fuel`; the Python guard
`attempt < max_attempts - 1` is `fuel > 1` at entry of an iteration, i.e.
`rest > 0` after consuming one unit, and `attempt == max_attempts - 1` is
`rest = 0`. -/
def safeCallLoop (dryRun : Bool) (baseDelay : ℚ) (oracle : Nat → CallOutcome) :
    Nat → Nat → Option AwsError → GatewayResult
  | _, 0, lastExc => ⟨.error (raiseLast lastExc), [], 0⟩
  | attempt, rest + 1, _ =>
    if dryRun then ⟨.ok none, [], 0⟩
    else
      match oracle attempt with
      | .success v => ⟨.ok (some v), [], 1⟩
      | .clientError code msg =>
        let e := AwsError.clientError code msg
        if code ∈ nonRetryableCodes then ⟨.error e, [], 1⟩
        else if 0 < rest then
          let r := safeCallLoop dryRun baseDelay oracle (attempt + 1) rest (some e)
          ⟨r.result, baseDelay * 2 ^ attempt :: r.sleeps, r.attempts + 1⟩
        else ⟨.error e, [], 1⟩
      | .genericError msg =>
        let e := AwsError.genericError msg
        if rest = 0 then ⟨.error e, [], 1⟩
        else
          let r := safeCallLoop dryRun baseDelay oracle (attempt + 1) rest (some e)
          ⟨r.result, r.sleeps, r.attempts + 1⟩

/-- `AWSServiceManager.safe_call_with_retry` (`aws/__init__.py` lines 46-91). -/
def safeCallWithRetry (dryRun : Bool) (maxAttempts : Nat) (baseDelay : ℚ)
    (oracle : Nat → CallOutcome) : GatewayResult :=
  safeCallLoop dryRun baseDelay oracle 0 maxAttempts none

/-- `AWSServiceManager.safe_call` — delegates with the default retry policy
(3 attempts, base delay 1.0). -/
def safeCall (dryRun : Bool) (oracle : Nat → CallOutcome) : GatewayResult :=
  safeCallWithRetry dryRun 3 1 oracle

/-- `AWSServiceManager.resource_exists` (`aws/__init__.py` lines 93-103):
a successful check means the resource exists; a `ClientError` with a
not-found code means it does not; any other error propagates. -/
def resourceExists (dryRun : Bool) (oracle : Nat → CallOutcome) : Except AwsError Bool :=
  match (safeCall dryRun oracle).result with
  | .ok _ => .ok true
  | .error e =>
    match e with
    | .clientError code msg =>
      if code ∈ notFoundCodes then .ok false else .error (.clientError code msg)
    | e => .error e

/-! ### Readiness waits (`lambda_manager.py` lines 177-233) -/

/-- Result of a readiness wait: success or raised error, the delays slept in
order, and the number of `get_function` polls performed. -/
structure WaitResult where
  result : Except AwsError Unit
  sleeps : List ℚ
  polls : Nat
  deriving DecidableEq, Repr

/-- What one iteration of the `_wait_for_function_active` `try` block does,
before its `except` handler runs.  `pollOracle` gives the outcome of the
`safe_call('get_function', ...)` of each poll (the inner retry loop of the
gateway is abstracted into this outcome). -/
inductive IterOutcome where
  | returned
  | fellThrough
  | sleptAndContinued
  | raised (e : AwsError)
  deriving DecidableEq, Repr

/-- The `try` block of one iteration of `_wait_for_function_active`
(`lambda_manager.py` lines 185-199).  `lastIter` is `attempt == max_attempts - 1`.
States other than Active/Failed/Pending match no branch and fall through with
no sleep. -/
def waitActiveIter (pollOracle : Nat → Except AwsError FunctionConfig)
    (maxAttempts : Nat) (lastIter : Bool) (attempt : Nat) : IterOutcome :=
  match pollOracle attempt with
  | .error e => .raised e
  | .ok cfg =>
    if cfg.state = "Active" then .returned
    else if cfg.state = "Failed" then
      .raised (.valueError ("Function creation failed: " ++ cfg.stateReason.getD "Unknown error"))
    else if cfg.state = "Pending" then
      if lastIter then
        .raised (.timeoutError
          ("Function did not become active within " ++ toString (maxAttempts * 2) ++ " seconds"))
      else .sleptAndContinued
    else .fellThrough

/-- The `try` block of one iteration of `_wait_for_function_updated`
(`lambda_manager.py` lines 214-228); statuses other than
Successful/Failed/InProgress/empty fall through with no sleep. -/
def waitUpdatedIter (pollOracle : Nat → Except AwsError FunctionConfig)
    (maxAttempts : Nat) (lastIter : Bool) (attempt : Nat) : IterOutcome :=
  match pollOracle attempt with
  | .error e => .raised e
  | .ok cfg =>
    if cfg.lastUpdateStatus = "Successful" then .returned
    else if cfg.lastUpdateStatus = "Failed" then
      .raised (.valueError
        ("Function update failed: " ++ cfg.lastUpdateStatusReason.getD "Unknown error"))
    else if cfg.lastUpdateStatus = "InProgress" ∨ cfg.lastUpdateStatus = "" then
      if lastIter then
        .raised (.timeoutError
          ("Function update did not complete within " ++ toString (maxAttempts * 2) ++ " seconds"))
      else .sleptAndContinued
    else .fellThrough

/-- The polling loop shared by both waits (`lambda_manager.py` lines 184-204
and 213-233).  An exception raised inside an iteration is caught by the
`except Exception` handler: on the last iteration it is re-raised wrapped in a
`TimeoutError` with the given prefix, otherwise the handler sleeps 2 seconds
and the loop continues.  Falling off the loop returns normally (success). -/
def waitLoop (iter : Bool → Nat → IterOutcome) (wrapMsg : String) :
    Nat → Nat → WaitResult
  | _, 0 => ⟨.ok (), [], 0⟩
  | attempt, rest + 1 =>
    let lastIter : Bool := rest = 0
    match iter lastIter attempt with
    | .returned => ⟨.ok (), [], 1⟩
    | .fellThrough =>
      let r := waitLoop iter wrapMsg (attempt + 1) rest
      ⟨r.result, r.sleeps, r.polls + 1⟩
    | .sleptAndContinued =>
      let r := waitLoop iter wrapMsg (attempt + 1) rest
      ⟨r.result, 2 :: r.sleeps, r.polls + 1⟩
    | .raised e =>
      if lastIter then ⟨.error (.timeoutError (wrapMsg ++ msgOf e)), [], 1⟩
      else
        let r := waitLoop iter wrapMsg (attempt + 1) rest
        ⟨r.result, 2 :: r.sleeps, r.polls + 1⟩

/-- `LambdaManager._wait_for_function_active` (`lambda_manager.py` lines
177-204).  In dry-run mode it returns immediately with no poll. -/
def waitForFunctionActive (dryRun : Bool)
    (pollOracle : Nat → Except AwsError FunctionConfig) (maxAttempts : Nat := 20) : WaitResult :=
  if dryRun then ⟨.ok (), [], 0⟩
  else
    waitLoop (waitActiveIter pollOracle maxAttempts)
      "Failed to check function state: " 0 maxAttempts

/-- `LambdaManager._wait_for_function_updated` (`lambda_manager.py` lines
206-233).  In dry-run mode it returns immediately with no poll. -/
def waitForFunctionUpdated (dryRun : Bool)
    (pollOracle : Nat → Except AwsError FunctionConfig) (maxAttempts : Nat := 20) : WaitResult :=
  if dryRun then ⟨.ok (), [], 0⟩
  else
    waitLoop (waitUpdatedIter pollOracle maxAttempts)
      "Failed to check function update status: " 0 maxAttempts

/-! ### Function deployment (`lambda_manager.py` lines 23-175) -/

/-- `LambdaManager._validate_lambda_parameters` (`lambda_manager.py` lines
165-175): a pure, local check raising `ValueError` on the first violated
bound. -/
def validateLambdaParameters (timeout memorySize : Int) : Except AwsError Unit :=
  if timeout < 1 ∨ timeout > 900 then
    .error (.valueError ("Timeout " ++ toString timeout ++ " must be between 1 and 900 seconds"))
  else if memorySize < 128 ∨ memorySize > 10240 then
    .error (.valueError
      ("Memory size " ++ toString memorySize ++ " must be between 128 and 10240 MB"))
  else if memorySize % 64 ≠ 0 then
    .error (.valueError ("Memory size " ++ toString memorySize ++ " must be a multiple of 64"))
  else .ok ()

/-- A remote network call issued by the function-deployment path.  Only
`getFunction` is a read; the other three mutate remote state. -/
inductive RemoteCall where
  | getFunction
  | createFunction
  | updateFunctionCode
  | updateFunctionConfiguration
  deriving DecidableEq, Repr

def RemoteCall.isMutating : RemoteCall → Bool
  | .getFunction => false
  | _ => true

/-- Live-mode outcomes of the remote calls `deploy_function` can make; the
read polls of a readiness wait are folded into the wait outcome. -/
structure RemoteBehavior where
  functionExists : Bool
  createResp : Except AwsError String
  waitActiveResult : Except AwsError Unit
  updateCodeResp : Except AwsError String
  waitUpdatedResult : Except AwsError Unit
  updateConfigResp : Except AwsError Unit
  deriving DecidableEq, Repr

/-- Which of the two `deploy_function` branches ran (`none` when the
deployment failed before the existence check decided a branch). -/
inductive DeployBranch where
  | createBranch
  | updateBranch
  deriving DecidableEq, Repr

/-- Result of `deploy_function`: returned ARN or raised error, the remote
network calls attempted in order, and the branch taken. -/
structure DeployResult where
  result : Except AwsError String
  calls : List RemoteCall
  branch : Option DeployBranch
  deriving DecidableEq, Repr

/-- The dry-run placeholder ARN both `_create_function` and `_update_function`
return (`lambda_manager.py` lines 109 and 155): sentinel account 000000000000. -/
def dryRunFunctionArn (region functionName : String) : String :=
  "arn:aws:lambda:" ++ region ++ ":000000000000:function:" ++ functionName

/-- `LambdaManager._create_function` (`lambda_manager.py` lines 73-115):
validate, call `create_function` through the gateway (a no-op returning `None`
in dry-run), return the placeholder ARN in dry-run, otherwise wait for the
function to become active and return the ARN of the response. -/
def createFunctionFlow (dryRun : Bool) (region functionName : String)
    (timeout memorySize : Int) (remote : RemoteBehavior) : DeployResult :=
  match validateLambdaParameters timeout memorySize with
  | .error e => ⟨.error e, [], some .createBranch⟩
  | .ok () =>
    if dryRun then ⟨.ok (dryRunFunctionArn region functionName), [], some .createBranch⟩
    else
      match remote.createResp with
      | .error e => ⟨.error e, [.createFunction], some .createBranch⟩
      | .ok arn =>
        match remote.waitActiveResult with
        | .error e => ⟨.error e, [.createFunction], some .createBranch⟩
        | .ok () => ⟨.ok arn, [.createFunction], some .createBranch⟩

/-- `LambdaManager._update_function` (`lambda_manager.py` lines 117-163):
validate, update code, wait (skipped in dry-run), update configuration,
return the placeholder ARN in dry-run, otherwise the ARN of the code
response. -/
def updateFunctionFlow (dryRun : Bool) (region functionName : String)
    (timeout memorySize : Int) (remote : RemoteBehavior) : DeployResult :=
  match validateLambdaParameters timeout memorySize with
  | .error e => ⟨.error e, [], some .updateBranch⟩
  | .ok () =>
    if dryRun then ⟨.ok (dryRunFunctionArn region functionName), [], some .updateBranch⟩
    else
      match remote.updateCodeResp with
      | .error e => ⟨.error e, [.updateFunctionCode], some .updateBranch⟩
      | .ok arn =>
        match remote.waitUpdatedResult with
        | .error e => ⟨.error e, [.updateFunctionCode], some .updateBranch⟩
        | .ok () =>
          match remote.updateConfigResp with
          | .error e =>
            ⟨.error e, [.updateFunctionCode, .updateFunctionConfiguration], some .updateBranch⟩
          | .ok () =>
            ⟨.ok arn, [.updateFunctionCode, .updateFunctionConfiguration], some .updateBranch⟩

/-- `LambdaManager.deploy_function` (`lambda_manager.py` lines 23-71):
package checks, then the existence check `resource_exists('get_function', ...)`
— one remote read in live mode, no network call and `True` in dry-run — then
the create or update flow. -/
def deployFunction (dryRun : Bool) (region functionName : String)
    (timeout memorySize : Int) (packageExists : Bool) (packageSizeMB : ℚ)
    (remote : RemoteBehavior) : DeployResult :=
  if ¬packageExists then
    ⟨.error (.fileNotFoundError "Package not found"), [], none⟩
  else if packageSizeMB > 250 then
    ⟨.error (.valueError "Package size exceeds AWS limit of 250MB"), [], none⟩
  else
    let existsCheckCalls : List RemoteCall := if dryRun then [] else [.getFunction]
    let functionExists : Bool := if dryRun then true else remote.functionExists
    let flow :=
      if functionExists then updateFunctionFlow dryRun region functionName timeout memorySize remote
      else createFunctionFlow dryRun region functionName timeout memorySize remote
    ⟨flow.result, existsCheckCalls ++ flow.calls, flow.branch⟩

/-! ### Budget provisioning (`budget_manager.py` lines 109-216) -/

/-- One entry of the `notifications` list built in
`_ensure_budget_with_notifications` (`budget_manager.py` lines 144-169). -/
structure Notification where
  notificationType : String
  comparisonOperator : String
  threshold : ℚ
  thresholdType : String
  subscriberAddress : String
  deriving DecidableEq, Repr

/-- The two fixed notifications of `_ensure_budget_with_notifications`:
80% and 100% ACTUAL-spend thresholds, both subscribing the SNS topic. -/
def budgetNotifications (snsTopicArn : String) : List Notification :=
  [⟨"ACTUAL", "GREATER_THAN", 80, "PERCENTAGE", snsTopicArn⟩,
   ⟨"ACTUAL", "GREATER_THAN", 100, "PERCENTAGE", snsTopicArn⟩]

/-- A remote call of the budget service.  `createBudget` carries the
`NotificationsWithSubscribers` payload; `update_budget` is called with
`AccountId` and `NewBudget` only (`budget_manager.py` lines 206-216), so
`updateBudget` has no notifications field. -/
inductive BudgetCall where
  | describeBudget (name : String)
  | createBudget (name : String) (limit : ℚ) (notifications : List Notification)
  | updateBudget (name : String) (limit : ℚ)
  deriving DecidableEq, Repr

/-- `BudgetManager._budget_exists` (`budget_manager.py` lines 176-186): a
successful `describe_budget` means the budget exists, any exception means it
does not.  In dry-run the gateway returns `None` without raising, so the
check is `True`; in live mode the remote answer decides. -/
def budgetExistsCheck (dryRun : Bool) (remoteAnswer : Bool) : Bool :=
  if dryRun then true else remoteAnswer

/-- `BudgetManager._ensure_budget_with_notifications` (`budget_manager.py`
lines 109-174): build the definition and the two notifications, then
create-if-absent else update-in-place.  Returns the budget-service calls
issued, in order. -/
def ensureBudgetWithNotifications (budgetExists : Bool) (budgetName : String)
    (budgetLimit : ℚ) (snsTopicArn : String) : List BudgetCall :=
  if budgetExists then
    [.describeBudget budgetName, .updateBudget budgetName budgetLimit]
  else
    [.describeBudget budgetName,
     .createBudget budgetName budgetLimit (budgetNotifications snsTopicArn)]

/-- The notifications attached to the budget by a call trace: exactly those
carried by a `create_budget` call (no other budget call carries any). -/
def notificationsAttached (calls : List BudgetCall) : List Notification :=
  calls.foldr
    (fun c acc =>
      match c with
      | .createBudget _ _ ns => ns ++ acc
      | _ => acc)
    []

/-! ### IAM role provisioning (`iam_manager.py` lines 21-64) -/

/-- A remote IAM call made by `ensure_lambda_role`; only `getRole` is a read. -/
inductive IamCall where
  | getRole (name : String)
  | createRole (name : String)
  | attachRolePolicy (name policyArn : String)
  deriving DecidableEq, Repr

def IamCall.isMutating : IamCall → Bool
  | .getRole _ => false
  | _ => true

def IamCall.isCreation : IamCall → Bool
  | .createRole _ => true
  | _ => false

/-- The remote registry of existing role names. -/
structure RoleState where
  roles : List String
  deriving DecidableEq, Repr

/-- Result of `ensure_lambda_role`: the registry afterwards, the returned
handle, the IAM calls issued in order, and the seconds slept for propagation. -/
structure EnsureRoleResult where
  state : RoleState
  handle : String
  calls : List IamCall
  sleptSeconds : ℚ
  deriving DecidableEq, Repr

/-- `IAMManager.ensure_lambda_role` (`iam_manager.py` lines 21-64): compute
the ARN, check existence through the gateway (`True` without any network call
in dry-run), return the ARN if the role exists, otherwise create the role,
attach the basic execution policy, sleep 10 seconds unless in dry-run, and
return the ARN. -/
def ensureLambdaRole (dryRun : Bool) (st : RoleState) (roleName accountId : String) :
    EnsureRoleResult :=
  let roleArn := "arn:aws:iam::" ++ accountId ++ ":role/" ++ roleName
  let roleExists : Bool := if dryRun then true else st.roles.contains roleName
  if roleExists then ⟨st, roleArn, [.getRole roleName], 0⟩
  else
    ⟨⟨roleName :: st.roles⟩, roleArn,
      [.getRole roleName, .createRole roleName,
       .attachRolePolicy roleName "arn:aws:iam::aws:policy/service-role/AWSLambdaBasicExecutionRole"],
      if dryRun then 0 else 10⟩

/-! ### Schedule provisioning (`scheduler_manager.py` lines 19-140) -/

/-- A remote EventBridge Scheduler call; only `getSchedule` is a read.  The
write calls carry the optional `ScheduleExpressionTimezone` parameter. -/
inductive SchedulerCall where
  | getSchedule (name : String)
  | createSchedule (name : String) (timezone : Option String)
  | updateSchedule (name : String) (timezone : Option String)
  deriving DecidableEq, Repr

def SchedulerCall.isMutating : SchedulerCall → Bool
  | .getSchedule _ => false
  | _ => true

def SchedulerCall.isCreation : SchedulerCall → Bool
  | .createSchedule _ _ => true
  | _ => false

/-- The remote registry of existing schedule names. -/
structure ScheduleState where
  schedules : List String
  deriving DecidableEq, Repr

/-- Result of `ensure_schedule`: the registry afterwards, the returned value
(`ensure_schedule` returns Python `None`, hence `Option String` = `none`),
and the scheduler calls issued in order. -/
structure EnsureScheduleResult where
  state : ScheduleState
  handle : Option String
  calls : List SchedulerCall
  deriving DecidableEq, Repr

/-- The `ScheduleExpressionTimezone` parameter added by `_create_schedule` /
`_update_schedule` (`scheduler_manager.py` lines 101-102, 134-135): included
only when a timezone is given (Python-truthy, so non-empty) and the
expression is a `cron(` expression. -/
def scheduleTimezoneParam (scheduleExpression : String) (timezone : Option String) :
    Option String :=
  match timezone with
  | none => none
  | some tz =>
    if tz ≠ "" ∧ scheduleExpression.startsWith "cron(" then some tz else none

/-- `SchedulerManager.ensure_schedule` (`scheduler_manager.py` lines 19-66):
check existence (`_schedule_exists` treats any exception as absent and is
`True` in dry-run, where the gateway returns `None` without raising), then
update-in-place when present, else create.  Returns Python `None` either
way. -/
def ensureSchedule (dryRun : Bool) (st : ScheduleState) (scheduleName scheduleExpression : String)
    (timezone : Option String) : EnsureScheduleResult :=
  let tzParam := scheduleTimezoneParam scheduleExpression timezone
  let scheduleExists : Bool := if dryRun then true else st.schedules.contains scheduleName
  if scheduleExists then
    ⟨st, none, [.getSchedule scheduleName, .updateSchedule scheduleName tzParam]⟩
  else
    ⟨⟨scheduleName :: st.schedules⟩, none,
      [.getSchedule scheduleName, .createSchedule scheduleName tzParam]⟩

/-! ### ECR repository provisioning (`ecr_manager.py` lines 21-60) -/

/-- Which path `ensure_repository` took: the dry-run early return (before any
existence check), the repository-exists path, or the creation path. -/
inductive EcrBranch where
  | dryRunShortCircuit
  | repoExistsBranch
  | createBranch
  deriving DecidableEq, Repr

structure EnsureRepoResult where
  uri : String
  branch : EcrBranch
  deriving DecidableEq, Repr

/-- `ECRManager.ensure_repository` (`ecr_manager.py` lines 21-60): in dry-run
it returns a mock URI with sentinel account 123456789012 immediately, before
any existence check; otherwise it describes the repository and creates it on
`RepositoryNotFoundException`. -/
def ensureRepository (dryRun : Bool) (region repositoryName : String)
    (repoExists : Bool) (existingUri createdUri : String) : EnsureRepoResult :=
  if dryRun then
    ⟨"123456789012.dkr.ecr." ++ region ++ ".amazonaws.com/" ++ repositoryName,
      .dryRunShortCircuit⟩
  else if repoExists then ⟨existingUri, .repoExistsBranch⟩
  else ⟨createdUri, .createBranch⟩

/-! ### Orchestrator: step skipping and the budget step
(`deployer.py` lines 72-146, `container_deployer.py` lines 43-67) -/

/-- The execution-mode flags of `DeployConfig` the skip rules read. -/
structure ModeFlags where
  enableBudget : Bool
  localTestEnabled : Bool
  dryRun : Bool
  deriving DecidableEq, Repr

/-- `Deployer._should_skip_step` (`deployer.py` lines 101-109). -/
def shouldSkipStep (cfg : ModeFlags) (stepName : String) : Bool :=
  if stepName = "Budget Setup" ∧ (cfg.enableBudget = false ∨ cfg.localTestEnabled = true) then
    true
  else if stepName = "Local Test" ∧ cfg.localTestEnabled = false then true
  else if (stepName = "IAM Setup" ∨ stepName = "Lambda Deployment" ∨ stepName = "Schedule Setup")
      ∧ cfg.localTestEnabled = true then
    true
  else false

/-- `Deployer.get_default_deployment_steps` (`deployer.py` lines 61-70):
the generic step list, fixed; skipping is decided per step by
`shouldSkipStep`. -/
def genericDeploymentSteps : List String :=
  ["Budget Setup", "Build Package", "Local Test", "IAM Setup",
   "Lambda Deployment", "Schedule Setup"]

/-- `ContainerDeployer.get_default_deployment_steps`
(`container_deployer.py` lines 43-67): the container step list, rebuilt from
the mode flags; conditional steps are omitted from the list instead of being
skipped later. -/
def containerDeploymentSteps (cfg : ModeFlags) (skipContainerTest : Bool) : List String :=
  ["ECR Repository Setup"]
    ++ (if cfg.enableBudget = true ∧ cfg.localTestEnabled = false then ["Budget Setup"] else [])
    ++ ["Container Build"]
    ++ (if cfg.localTestEnabled = true ∧ skipContainerTest = false then ["Local Container Test"]
        else [])
    ++ (if cfg.localTestEnabled = false then
          ["IAM Setup", "Container Deployment", "Schedule Setup"]
        else [])

/-- The step loop of `Deployer.deploy` (`deployer.py` lines 81-89): steps run
in order, a skipped step is vacuously successful, and the first error of an
executed step aborts the whole run. -/
def runPipeline (cfg : ModeFlags) : List (String × Except String Unit) → Except String Unit
  | [] => .ok ()
  | (stepName, action) :: rest =>
    if shouldSkipStep cfg stepName then runPipeline cfg rest
    else
      match action with
      | .error e => .error e
      | .ok () => runPipeline cfg rest

/-- The attribute names a `DeployConfig` instance has (the dataclass fields of
`config.py` lines 23-68); note there is no `budget_topic_name`. -/
def deployConfigFields : List String :=
  ["source_dir", "source_files", "output_dir", "package_name", "requirements_file",
   "region", "function_name", "role_name", "schedule_name",
   "runtime", "timeout", "memory_size", "handler",
   "schedule_expression",
   "enable_budget", "budget_name", "budget_limit", "budget_email",
   "parameter_store_path", "token_env_var",
   "local_test_enabled", "local_test_event",
   "dry_run",
   "account_id", "package_path",
   "required_env_vars", "allowed_env_prefixes", "excluded_packages"]

/-- The parameters declared by `BudgetManager.setup_budget_enforcement`
(`budget_manager.py` lines 36-42); the method declares no `**kwargs`. -/
def setupBudgetEnforcementParams : List String :=
  ["budget_name", "budget_limit", "email", "budget_action_role_arn"]

/-- The keyword arguments `Deployer._setup_budget_if_needed` passes to
`setup_budget_enforcement` (`deployer.py` lines 136-142). -/
def setupBudgetKeywordArgs : List String :=
  ["budget_name", "budget_limit", "email", "budget_action_role_arn", "sns_topic_name"]

/-- Python keyword-argument binding for a method with no `**kwargs`: a
keyword that names no declared parameter raises `TypeError`. -/
def bindKeywords (declaredParams kwargs : List String) : Except String Unit :=
  match kwargs.find? (fun k => declaredParams.contains k = false) with
  | some k => .error ("got an unexpected keyword argument " ++ k)
  | none => .ok ()

/-- Python attribute access on a `DeployConfig`: a name that is not a
dataclass field raises `AttributeError`. -/
def getattrDeployConfig (attr : String) : Except String Unit :=
  if deployConfigFields.contains attr then .ok ()
  else .error ("DeployConfig object has no attribute " ++ attr)

/-- The body of `Deployer._setup_budget_if_needed` past its early-return
guard (`deployer.py` lines 127-146): the two IAM budget-role calls (their
combined outcome is `iamResult`), then the argument expressions of the
`setup_budget_enforcement` call — which read `self.config.budget_topic_name`
— and then the keyword binding of that call. -/
def setupBudgetStepBody (iamResult : Except String Unit) : Except String Unit :=
  match iamResult with
  | .error e => .error e
  | .ok () =>
    match getattrDeployConfig "budget_topic_name" with
    | .error e => .error e
    | .ok () => bindKeywords setupBudgetEnforcementParams setupBudgetKeywordArgs

/-- `Deployer._setup_budget_if_needed` (`deployer.py` lines 120-146),
including its own early-return guard. -/
def setupBudgetIfNeeded (cfg : ModeFlags) (iamResult : Except String Unit) :
    Except String Unit :=
  if cfg.enableBudget = false ∨ cfg.localTestEnabled = true then .ok ()
  else setupBudgetStepBody iamResult

/-! ### Configuration accessors and identity resolution
(`config.py` lines 130-142, `deployer.py` lines 33-55) -/

/-- The slice of `DeployConfig` state the ARN accessors read.  `accountId` is
a dataclass field with `default=None, init=False`. -/
structure ConfigState where
  region : String
  functionName : String
  roleName : String
  accountId : Option String
  deriving DecidableEq, Repr

/-- Python truthiness of an optional string: `None` and the empty string are
falsy (`if not self.account_id`). -/
def pyTruthy : Option String → Bool
  | none => false
  | some s => s ≠ ""

/-- A freshly constructed `DeployConfig`: `account_id` starts as `None`
(`config.py` line 62) and `__post_init__` never assigns it. -/
def initialConfig (region functionName roleName : String) : ConfigState :=
  ⟨region, functionName, roleName, none⟩

/-- `DeployConfig.lambda_arn` (`config.py` lines 130-135). -/
def lambdaArn (c : ConfigState) : Except String String :=
  if pyTruthy c.accountId = false then .error "Account ID not set"
  else
    .ok ("arn:aws:lambda:" ++ c.region ++ ":" ++ c.accountId.getD "" ++ ":function:"
      ++ c.functionName)

/-- `DeployConfig.role_arn` (`config.py` lines 137-142). -/
def roleArn (c : ConfigState) : Except String String :=
  if pyTruthy c.accountId = false then .error "Account ID not set"
  else .ok ("arn:aws:iam::" ++ c.accountId.getD "" ++ ":role/" ++ c.roleName)

/-- Result of `Deployer._initialize_aws_managers`: the configuration
afterwards, how many times `config.account_id` was assigned, and whether the
initialization raised. -/
structure InitResult where
  config : ConfigState
  accountWrites : Nat
  result : Except String Unit
  deriving DecidableEq, Repr

/-- `Deployer._initialize_aws_managers` (`deployer.py` lines 33-55):
`AWSValidator.validate()` yields the account id or `None`; a falsy result
raises before `config.account_id` is ever assigned, otherwise the single
assignment `self.config.account_id = self.account_id` runs. -/
def initializeAwsManagers (c : ConfigState) (validatorResult : Option String) : InitResult :=
  if pyTruthy validatorResult = false then
    ⟨c, 0, .error "AWS validation failed - cannot get account ID"⟩
  else ⟨{ c with accountId := validatorResult }, 1, .ok ()⟩

/-! ## Helper predicates used by the claim theorems -/

/-- Is a budget call a `create_budget` call (the only call carrying a
`NotificationsWithSubscribers` payload)? -/
def BudgetCall.isCreateCall : BudgetCall → Bool
  | .createBudget _ _ _ => true
  | _ => false

/-- Is a budget call an `update_budget` call? -/
def BudgetCall.isUpdateCall : BudgetCall → Bool
  | .updateBudget _ _ => true
  | _ => false

/-- The error a failing call outcome raises. -/
def errOf : CallOutcome → AwsError
  | .success _ => .genericError "no error"
  | .clientError c m => .clientError c m
  | .genericError m => .genericError m

/-! ## Claim theorems -/

/-- Claim C7 (confirmed).  The per-step skip decision is a pure function of
the mode flags: with local-test-only mode on, `_should_skip_step` skips
IAM Setup, Lambda Deployment, Schedule Setup and Budget Setup, and the
container step list omits IAM Setup, Container Deployment, Schedule Setup and
Budget Setup; with budget enforcement disabled the budget step is skipped by
the generic deployer and never appears in the container step list; the local
test step is skipped exactly when local-test mode is not requested. -/
theorem c7_step_skip_pure_mode_flags (eb lt dr sct : Bool) :
    shouldSkipStep ⟨eb, true, dr⟩ "IAM Setup" = true ∧
    shouldSkipStep ⟨eb, true, dr⟩ "Lambda Deployment" = true ∧
    shouldSkipStep ⟨eb, true, dr⟩ "Schedule Setup" = true ∧
    shouldSkipStep ⟨eb, true, dr⟩ "Budget Setup" = true ∧
    (containerDeploymentSteps ⟨eb, true, dr⟩ sct).contains "IAM Setup" = false ∧
    (containerDeploymentSteps ⟨eb, true, dr⟩ sct).contains "Container Deployment" = false ∧
    (containerDeploymentSteps ⟨eb, true, dr⟩ sct).contains "Schedule Setup" = false ∧
    (containerDeploymentSteps ⟨eb, true, dr⟩ sct).contains "Budget Setup" = false ∧
    shouldSkipStep ⟨false, lt, dr⟩ "Budget Setup" = true ∧
    (containerDeploymentSteps ⟨false, lt, dr⟩ sct).contains "Budget Setup" = false ∧
    shouldSkipStep ⟨eb, lt, dr⟩ "Local Test" = !lt := by
  cases eb <;> cases lt <;> cases dr <;> cases sct <;> decide

/-- Claim C5 counterexample.  With the budget already existing (the update
outcome), `_ensure_budget_with_notifications` issues only `describe_budget`
and `update_budget` — a call trace that attaches no notification at all —
while the claim requires the two fixed thresholds to be attached in the
update outcome as well (on the create outcome they are the 80 and 100
thresholds, as the last two conjuncts show). -/
theorem c5_counterexample :
    ensureBudgetWithNotifications true "Lambda Function Budget" 1 "arn:aws:sns:t" =
      [.describeBudget "Lambda Function Budget", .updateBudget "Lambda Function Budget" 1] ∧
    notificationsAttached
      (ensureBudgetWithNotifications true "Lambda Function Budget" 1 "arn:aws:sns:t") = [] ∧
    (notificationsAttached
      (ensureBudgetWithNotifications false "Lambda Function Budget" 1 "arn:aws:sns:t")).map
      Notification.threshold = [80, 100] := by
  decide

/-- Claim C5 (corrected).  Amended: the budget definition is created if
absent, otherwise updated in place; the two fixed notification thresholds —
warning at 80% and enforcement at 100% — are attached only on the create
outcome (via `NotificationsWithSubscribers`); the update outcome issues
`update_budget` with the new definition only and attaches no notification. -/
theorem c5_amended_budget_thresholds (budgetExists : Bool) (name topic : String) (limit : ℚ) :
    (notificationsAttached (ensureBudgetWithNotifications false name limit topic)).map
      Notification.threshold = [80, 100] ∧
    notificationsAttached (ensureBudgetWithNotifications true name limit topic) = [] ∧
    (ensureBudgetWithNotifications budgetExists name limit topic).countP
      BudgetCall.isCreateCall = (if budgetExists then 0 else 1) ∧
    (ensureBudgetWithNotifications budgetExists name limit topic).countP
      BudgetCall.isUpdateCall = (if budgetExists then 1 else 0) := by
  cases budgetExists <;>
    simp [ensureBudgetWithNotifications, notificationsAttached, budgetNotifications,
      BudgetCall.isCreateCall, BudgetCall.isUpdateCall, List.countP_cons, Notification.threshold]

/-- Claim C3 (code_bug).  The poll oracle reporting the explicit failed
terminal state on every poll: the claim (and the intent visible in the
source's own `raise ValueError("Function creation failed: ...")`) is that the
wait fail immediately with the remote-supplied reason, but that `ValueError`
is caught by the `except Exception` handler of the same loop, so the wait
sleeps 2 s, re-polls until the budget is exhausted, and finally surfaces a
`TimeoutError` labelled as a state-check failure that merely embeds the
reason text.  The second conjunct shows the dry-run immediate success and
the third the genuine-timeout path (fixed 2 s interval, `maxPolls` polls),
which do behave as claimed. -/
theorem c3_failed_state_swallowed :
    waitForFunctionActive false (fun _ => .ok ⟨"Failed", some "perm denied", "", none⟩) 3 =
      ⟨.error (.timeoutError
          "Failed to check function state: Function creation failed: perm denied"),
        [2, 2], 3⟩ ∧
    waitForFunctionActive true (fun _ => .ok ⟨"Failed", some "perm denied", "", none⟩) 3 =
      ⟨.ok (), [], 0⟩ ∧
    waitForFunctionActive false (fun _ => .ok ⟨"Pending", none, "", none⟩) 3 =
      ⟨.error (.timeoutError
          "Failed to check function state: Function did not become active within 6 seconds"),
        [2, 2], 3⟩ ∧
    waitForFunctionUpdated false (fun _ => .ok ⟨"", none, "Failed", some "bad image"⟩) 3 =
      ⟨.error (.timeoutError
          "Failed to check function update status: Function update failed: bad image"),
        [2, 2], 3⟩ := by
  decide

/-- Claim C10 (confirmed).  Whenever the generic orchestrator's Budget Setup
step actually executes (budget enforcement on, local-test off — for any
dry-run flag and any outcome of the preceding IAM role calls), it raises:
the argument expressions of the `setup_budget_enforcement` call read
`config.budget_topic_name`, which no `DeployConfig` field provides, and the
call itself passes the keyword `sns_topic_name`, which the method's signature
does not accept; the skip predicate does not skip the step, so the pipeline
aborts with the error. -/
theorem c10_budget_step_always_errors (dr : Bool) (iamResult : Except String Unit)
    (rest : List (String × Except String Unit)) :
    setupBudgetEnforcementParams.contains "sns_topic_name" = false ∧
    bindKeywords setupBudgetEnforcementParams setupBudgetKeywordArgs =
      .error "got an unexpected keyword argument sns_topic_name" ∧
    deployConfigFields.contains "budget_topic_name" = false ∧
    shouldSkipStep ⟨true, false, dr⟩ "Budget Setup" = false ∧
    (∃ e, setupBudgetIfNeeded ⟨true, false, dr⟩ iamResult = .error e) ∧
    (∃ e, runPipeline ⟨true, false, dr⟩
        (("Budget Setup", setupBudgetIfNeeded ⟨true, false, dr⟩ iamResult) :: rest) =
      .error e) := by
  obtain ⟨e, hact⟩ : ∃ e, setupBudgetIfNeeded ⟨true, false, dr⟩ iamResult = .error e := by
    cases iamResult with
    | error e => exact ⟨e, rfl⟩
    | ok u =>
      cases u
      exact ⟨"DeployConfig object has no attribute budget_topic_name", rfl⟩
  have hskip : shouldSkipStep ⟨true, false, dr⟩ "Budget Setup" = false := rfl
  refine ⟨by decide, by decide, by decide, hskip, ⟨e, hact⟩, ⟨e, ?_⟩⟩
  simp [runPipeline, hskip, hact]

/-- Claim C8 (confirmed).  A freshly constructed configuration has no account
identifier; both remote-identifier accessors (`lambda_arn`, `role_arn`) raise
while it is unset; `_initialize_aws_managers` assigns it exactly once when
identity resolution succeeds, after which the accessors succeed, and assigns
it zero times (leaving it unset) when resolution fails. -/
theorem c8_account_id_resolution (region fn role : String) (c : ConfigState)
    (vr : Option String) (hunset : c.accountId = none) :
    (initialConfig region fn role).accountId = none ∧
    lambdaArn c = .error "Account ID not set" ∧
    roleArn c = .error "Account ID not set" ∧
    ((initializeAwsManagers c vr).result = .ok () →
      (initializeAwsManagers c vr).accountWrites = 1 ∧
      (initializeAwsManagers c vr).config.accountId = vr ∧
      lambdaArn (initializeAwsManagers c vr).config =
        .ok ("arn:aws:lambda:" ++ c.region ++ ":" ++ vr.getD "" ++ ":function:"
          ++ c.functionName)) ∧
    ((initializeAwsManagers c vr).accountWrites = 0 →
      (initializeAwsManagers c vr).config.accountId = none ∧
      lambdaArn (initializeAwsManagers c vr).config = .error "Account ID not set") := by
  refine ⟨rfl, ?_, ?_, ?_, ?_⟩
  · simp [lambdaArn, hunset, pyTruthy]
  · simp [roleArn, hunset, pyTruthy]
  · intro hok
    by_cases h : pyTruthy vr = false
    · simp [initializeAwsManagers, h] at hok
    · have h' : pyTruthy vr = true := by
        cases hb : pyTruthy vr
        · exact absurd hb h
        · rfl
      simp [initializeAwsManagers, h', lambdaArn]
  · intro hw
    by_cases h : pyTruthy vr = false
    · have hc : (initializeAwsManagers c vr).config = c := by
        simp [initializeAwsManagers, h]
      rw [hc]
      refine ⟨hunset, ?_⟩
      simp [lambdaArn, hunset, pyTruthy]
    · simp [initializeAwsManagers, h] at hw

/-- Witness for C8 at a concrete configuration and a successful identity
resolution. -/
theorem c8_witness :
    (initialConfig "us-east-1" "fn" "fn-role").accountId = none ∧
    (initializeAwsManagers (initialConfig "us-east-1" "fn" "fn-role")
        (some "123456789012")).accountWrites = 1 ∧
    lambdaArn (initializeAwsManagers (initialConfig "us-east-1" "fn" "fn-role")
        (some "123456789012")).config =
      .ok "arn:aws:lambda:us-east-1:123456789012:function:fn" := by
  have h := c8_account_id_resolution "us-east-1" "fn" "fn-role"
    (initialConfig "us-east-1" "fn" "fn-role") (some "123456789012") rfl
  have h4 := h.2.2.2.1 (by decide)
  exact ⟨h.1, h4.1, h4.2.2.trans (by decide)⟩

/-- An oracle standing for a remote side that would answer a create_function
call with a real response; used to show the dry-run gateway ignores it. -/
def c1Oracle : Nat → CallOutcome :=
  fun _ => .success (.functionResp "arn:aws:lambda:us-east-1:111122223333:function:fn")

/-- Claim C1 counterexample.  A gateway call in dry-run mode returns Python
`None` (`.ok none`) — not a value of the shape the caller expects populated
with placeholder data: the caller of `create_function` expects a response
carrying a `FunctionArn`, and `_create_function` must special-case dry-run
precisely because the gateway gave it nothing.  (The no-network part is
true: zero attempts are made.) -/
theorem c1_counterexample :
    safeCallWithRetry true 3 1 c1Oracle = ⟨.ok none, [], 0⟩ ∧
    (safeCall true c1Oracle).result = .ok none := by
  decide

/-- Claim C1 (corrected).  Amended: while dry-run is active the gateway
performs no network interaction and returns a null result (`None`), not a
shaped placeholder; it is the provisioning operations themselves
(`_create_function` / `_update_function`) that substitute the deterministic
synthetic ARN embedding the sentinel account number 000000000000, which
every dry-run function deployment returns. -/
theorem c1_amended_dry_run_placeholders (oracle : Nat → CallOutcome) (maxAttempts : Nat)
    (baseDelay : ℚ) (region fn : String) (timeout mem : Int) (remote : RemoteBehavior)
    (sz : ℚ) (hmax : 1 ≤ maxAttempts) (hsz : sz ≤ 250)
    (hv : validateLambdaParameters timeout mem = .ok ()) :
    safeCallWithRetry true maxAttempts baseDelay oracle = ⟨.ok none, [], 0⟩ ∧
    deployFunction true region fn timeout mem true sz remote =
      ⟨.ok (dryRunFunctionArn region fn), [], some .updateBranch⟩ ∧
    dryRunFunctionArn region fn =
      "arn:aws:lambda:" ++ region ++ ":000000000000:function:" ++ fn := by
  refine ⟨?_, ?_, rfl⟩
  · match maxAttempts, hmax with
    | n + 1, _ => rfl
  · simp [deployFunction, updateFunctionFlow, hv, not_lt.mpr hsz]

/-- Remote behavior used by the C1 witness (its values are never reached in
dry-run). -/
def c1Remote : RemoteBehavior :=
  ⟨true, .ok "r", .ok (), .ok "r", .ok (), .ok ()⟩

/-- Witness for C1 at a concrete dry-run deployment. -/
theorem c1_witness :
    safeCallWithRetry true 3 1 c1Oracle = ⟨.ok none, [], 0⟩ ∧
    deployFunction true "us-east-1" "fn" 300 512 true 1 c1Remote =
      ⟨.ok (dryRunFunctionArn "us-east-1" "fn"), [], some .updateBranch⟩ := by
  have h := c1_amended_dry_run_placeholders c1Oracle 3 1 "us-east-1" "fn" 300 512 c1Remote 1
    (by decide) (by decide) (by decide)
  exact ⟨h.1, h.2.1⟩

/-- Remote behavior for the C4 counterexample: the function exists and every
remote call would succeed. -/
def c4Remote : RemoteBehavior :=
  ⟨true, .ok "arn:created", .ok (), .ok "arn:updated", .ok (), .ok ()⟩

/-- Claim C4 counterexample.  In live mode with timeout=0, the deployment is
rejected by the local numeric validation — but only after the remote
`get_function` existence check has been attempted: the recorded call trace is
`[getFunction]`, not empty, so the rejection does not happen before any
remote call is attempted. -/
theorem c4_counterexample :
    deployFunction false "us-east-1" "fn" 0 512 true 1 c4Remote =
      ⟨.error (.valueError "Timeout 0 must be between 1 and 900 seconds"),
        [.getFunction], some .updateBranch⟩ ∧
    (deployFunction false "us-east-1" "fn" 0 512 true 1 c4Remote).calls.length = 1 := by
  decide

/-- Claim C4 (corrected).  Amended: an out-of-range timeout or memory size
(or a memory size not a multiple of 64) is rejected by the local, synchronous,
never-retried validation before any remote *mutating* call is attempted —
the one remote read of the existence check precedes it; timeout=0, timeout=901,
memory=100 and memory=65 are each so rejected, while timeout=300 with
memory=512 passes validation. -/
theorem c4_amended_local_validation (region fn : String) (timeout mem : Int)
    (remote : RemoteBehavior) (sz : ℚ) (e : AwsError) (hsz : sz ≤ 250)
    (hv : validateLambdaParameters timeout mem = .error e) :
    (deployFunction false region fn timeout mem true sz remote).result = .error e ∧
    (deployFunction false region fn timeout mem true sz remote).calls.filter
      RemoteCall.isMutating = [] ∧
    (deployFunction false region fn timeout mem true sz remote).calls = [.getFunction] ∧
    validateLambdaParameters 0 512 =
      .error (.valueError "Timeout 0 must be between 1 and 900 seconds") ∧
    validateLambdaParameters 901 512 =
      .error (.valueError "Timeout 901 must be between 1 and 900 seconds") ∧
    validateLambdaParameters 300 100 =
      .error (.valueError "Memory size 100 must be between 128 and 10240 MB") ∧
    validateLambdaParameters 300 65 =
      .error (.valueError "Memory size 65 must be between 128 and 10240 MB") ∧
    validateLambdaParameters 300 512 = .ok () := by
  have hd : deployFunction false region fn timeout mem true sz remote =
      ⟨.error e, [.getFunction],
        some (if remote.functionExists then .updateBranch else .createBranch)⟩ := by
    cases hfe : remote.functionExists <;>
      simp [deployFunction, updateFunctionFlow, createFunctionFlow, hv, hfe, not_lt.mpr hsz]
  rw [hd]
  exact ⟨rfl, rfl, rfl, by decide, by decide, by decide, by decide, by decide⟩

/-- Witness for C4 at timeout=0, memory=512, live mode. -/
theorem c4_witness :
    (deployFunction false "us-east-1" "fn" 0 512 true 1 c1Remote).result =
      .error (.valueError "Timeout 0 must be between 1 and 900 seconds") ∧
    (deployFunction false "us-east-1" "fn" 0 512 true 1 c1Remote).calls.filter
      RemoteCall.isMutating = [] ∧
    validateLambdaParameters 300 512 = .ok () := by
  have h := c4_amended_local_validation "us-east-1" "fn" 0 512 c1Remote 1
    (.valueError "Timeout 0 must be between 1 and 900 seconds") (by decide) (by decide)
  exact ⟨h.1, h.2.1, h.2.2.2.2.2.2.2⟩

/-- Claim C6 counterexample.  Running `ensure_schedule` twice in live mode
from a registry without the schedule: the second invocation finds it existing
but then issues `update_schedule` — a mutating call — so it is not true that
the second invocation performs no mutating call (the second conjunct records
that `update_schedule` is classified as mutating). -/
theorem c6_counterexample :
    (ensureSchedule false
        (ensureSchedule false ⟨[]⟩ "fn-schedule" "rate(1 hour)" none).state
        "fn-schedule" "rate(1 hour)" none).calls =
      [.getSchedule "fn-schedule", .updateSchedule "fn-schedule" none] ∧
    SchedulerCall.isMutating (.updateSchedule "fn-schedule" none) = true ∧
    (ensureSchedule false
        (ensureSchedule false ⟨[]⟩ "fn-schedule" "rate(1 hour)" none).state
        "fn-schedule" "rate(1 hour)" none).calls.filter SchedulerCall.isMutating =
      [.updateSchedule "fn-schedule" none] := by
  decide

/-- Claim C6 (corrected).  Amended: invoking an ensure operation twice in
sequence with identical specs and no failures results in exactly one creation
call, the second invocation finding the resource existing, and the same
returned handle both times; for the create-only role provisioner the second
invocation performs no mutating call at all, while the update-supporting
schedule provisioner issues an update-in-place (but no creation) on its
second invocation. -/
theorem c6_amended_idempotency (st : RoleState) (sst : ScheduleState)
    (roleName accountId schedName expr : String) (tz : Option String)
    (h1 : roleName ∉ st.roles) (h2 : schedName ∉ sst.schedules) :
    ((ensureLambdaRole false st roleName accountId).calls ++
        (ensureLambdaRole false (ensureLambdaRole false st roleName accountId).state
          roleName accountId).calls).filter IamCall.isCreation =
      [.createRole roleName] ∧
    (ensureLambdaRole false (ensureLambdaRole false st roleName accountId).state
        roleName accountId).calls.filter IamCall.isMutating = [] ∧
    (ensureLambdaRole false (ensureLambdaRole false st roleName accountId).state
        roleName accountId).handle = (ensureLambdaRole false st roleName accountId).handle ∧
    ((ensureSchedule false sst schedName expr tz).calls ++
        (ensureSchedule false (ensureSchedule false sst schedName expr tz).state
          schedName expr tz).calls).filter SchedulerCall.isCreation =
      [.createSchedule schedName (scheduleTimezoneParam expr tz)] ∧
    (ensureSchedule false (ensureSchedule false sst schedName expr tz).state
        schedName expr tz).calls.filter SchedulerCall.isCreation = [] ∧
    (ensureSchedule false (ensureSchedule false sst schedName expr tz).state
        schedName expr tz).handle = (ensureSchedule false sst schedName expr tz).handle := by
  have e1 : ensureLambdaRole false st roleName accountId =
      ⟨⟨roleName :: st.roles⟩, "arn:aws:iam::" ++ accountId ++ ":role/" ++ roleName,
        [.getRole roleName, .createRole roleName,
         .attachRolePolicy roleName
           "arn:aws:iam::aws:policy/service-role/AWSLambdaBasicExecutionRole"], 10⟩ := by
    simp [ensureLambdaRole, h1]
  have e2 : ensureLambdaRole false ⟨roleName :: st.roles⟩ roleName accountId =
      ⟨⟨roleName :: st.roles⟩, "arn:aws:iam::" ++ accountId ++ ":role/" ++ roleName,
        [.getRole roleName], 0⟩ := by
    simp [ensureLambdaRole]
  have e3 : ensureSchedule false sst schedName expr tz =
      ⟨⟨schedName :: sst.schedules⟩, none,
        [.getSchedule schedName, .createSchedule schedName (scheduleTimezoneParam expr tz)]⟩ := by
    simp [ensureSchedule, h2]
  have e4 : ensureSchedule false ⟨schedName :: sst.schedules⟩ schedName expr tz =
      ⟨⟨schedName :: sst.schedules⟩, none,
        [.getSchedule schedName, .updateSchedule schedName (scheduleTimezoneParam expr tz)]⟩ := by
    simp [ensureSchedule]
  rw [e1, e2, e3, e4]
  refine ⟨?_, ?_, rfl, ?_, ?_, rfl⟩ <;>
    simp [List.filter, IamCall.isCreation, IamCall.isMutating, SchedulerCall.isCreation]

/-- Witness for C6 on an initially empty registry. -/
theorem c6_witness :
    ((ensureLambdaRole false ⟨[]⟩ "fn-role" "123456789012").calls ++
        (ensureLambdaRole false (ensureLambdaRole false ⟨[]⟩ "fn-role" "123456789012").state
          "fn-role" "123456789012").calls).filter IamCall.isCreation =
      [.createRole "fn-role"] ∧
    (ensureLambdaRole false (ensureLambdaRole false ⟨[]⟩ "fn-role" "123456789012").state
        "fn-role" "123456789012").handle =
      (ensureLambdaRole false ⟨[]⟩ "fn-role" "123456789012").handle := by
  have h := c6_amended_idempotency ⟨[]⟩ ⟨[]⟩ "fn-role" "123456789012" "fn-schedule"
    "rate(1 hour)" none (by decide) (by decide)
  exact ⟨h.1, h.2.2.1⟩

/-- Claim C9 counterexample.  The ECR repository provisioner in dry-run mode
returns its placeholder URI before any existence check: it takes neither the
already-exists/update branch nor the creation branch, refuting the universal
claim that every dry-run provisioning operation takes the
already-exists/update branch. -/
theorem c9_counterexample :
    ensureRepository true "us-east-1" "lambda-container" false "uri-live" "uri-created" =
      ⟨"123456789012.dkr.ecr.us-east-1.amazonaws.com/lambda-container",
        .dryRunShortCircuit⟩ := by
  decide

/-- Claim C9 (corrected).  Amended: in dry-run mode every existence check
through the gateway (`resource_exists`, and likewise `_budget_exists`)
returns true, because the dry-run gateway returns a placeholder `None`
without raising a not-found error; consequently every provisioning or
deployment operation whose create-vs-update decision goes through such a
check (`deploy_function`, `ensure_lambda_role`, `ensure_schedule`, the budget
ensure) takes the already-exists/update branch, issues no creation call and
makes no remote call — the ECR repository provisioner excepted, which
short-circuits with its mock URI before any existence check. -/
theorem c9_amended_dry_run_exists (oracle : Nat → CallOutcome) (region fn : String)
    (timeout mem : Int) (remote : RemoteBehavior) (sz : ℚ) (st : RoleState)
    (sst : ScheduleState) (roleName acct schedName expr : String) (tz : Option String)
    (remoteAnswer : Bool) (bname btopic : String) (blimit : ℚ) (repoName uri₁ uri₂ : String)
    (re : Bool) (hsz : sz ≤ 250) :
    resourceExists true oracle = .ok true ∧
    (deployFunction true region fn timeout mem true sz remote).branch = some .updateBranch ∧
    (deployFunction true region fn timeout mem true sz remote).calls = [] ∧
    (ensureLambdaRole true st roleName acct).calls = [.getRole roleName] ∧
    (ensureSchedule true sst schedName expr tz).calls =
      [.getSchedule schedName, .updateSchedule schedName (scheduleTimezoneParam expr tz)] ∧
    (ensureSchedule true sst schedName expr tz).calls.filter SchedulerCall.isCreation = [] ∧
    budgetExistsCheck true remoteAnswer = true ∧
    (ensureBudgetWithNotifications (budgetExistsCheck true remoteAnswer) bname blimit
      btopic).countP BudgetCall.isCreateCall = 0 ∧
    (ensureRepository true region repoName re uri₁ uri₂).branch = .dryRunShortCircuit := by
  refine ⟨rfl, ?_, ?_, rfl, rfl, ?_, rfl, ?_, rfl⟩
  · rcases hvm : validateLambdaParameters timeout mem with hv | hv <;>
      simp [deployFunction, updateFunctionFlow, hvm, not_lt.mpr hsz]
  · rcases hvm : validateLambdaParameters timeout mem with hv | hv <;>
      simp [deployFunction, updateFunctionFlow, hvm, not_lt.mpr hsz]
  · simp [ensureSchedule, SchedulerCall.isCreation, List.filter]
  · simp [budgetExistsCheck, ensureBudgetWithNotifications, BudgetCall.isCreateCall,
      List.countP_cons]

/-- Witness for C9 at a concrete dry-run run. -/
theorem c9_witness :
    resourceExists true c1Oracle = .ok true ∧
    (deployFunction true "us-east-1" "fn" 300 512 true 1 c1Remote).calls = [] ∧
    (ensureLambdaRole true ⟨[]⟩ "fn-role" "123456789012").calls = [.getRole "fn-role"] := by
  have h := c9_amended_dry_run_exists c1Oracle "us-east-1" "fn" 300 512 c1Remote 1 ⟨[]⟩ ⟨[]⟩
    "fn-role" "123456789012" "fn-schedule" "rate(1 hour)" none true "b" "t" 1 "repo" "u" "v"
    false (by decide)
  exact ⟨h.1, h.2.2.1, h.2.2.2.1⟩

/-- The retry loop never performs more network attempts than it has loop
iterations left. -/
theorem safeCallLoop_attempts_le (dryRun : Bool) (base : ℚ) (oracle : Nat → CallOutcome) :
    ∀ (fuel attempt : Nat) (lastE : Option AwsError),
      (safeCallLoop dryRun base oracle attempt fuel lastE).attempts ≤ fuel := by
  cases dryRun with
  | true =>
    intro fuel attempt lastE
    cases fuel with
    | zero => simp [safeCallLoop]
    | succ n => simp [safeCallLoop]
  | false =>
    intro fuel
    induction fuel with
    | zero =>
      intro attempt lastE
      simp [safeCallLoop]
    | succ n ih =>
      intro attempt lastE
      rw [safeCallLoop]
      simp only [Bool.false_eq_true, if_false]
      cases ho : oracle attempt with
      | success v => simp
      | clientError cc mm =>
        by_cases hc : cc ∈ nonRetryableCodes
        · simp [hc]
        · by_cases hr : 0 < n
          · have := ih (attempt + 1) (some (.clientError cc mm))
            simp only [if_neg hc, if_pos hr]
            simpa using Nat.succ_le_succ this
          · simp [hc, hr]
      | genericError mm =>
        by_cases hz : n = 0
        · simp [hz]
        · have := ih (attempt + 1) (some (.genericError mm))
          simp only [if_neg hz]
          simpa using Nat.succ_le_succ this

/-- When every available attempt fails with a retryable `ClientError`, the
loop consumes every attempt, sleeps `base · 2^(attempt+j)` after the j-th of
them (all but the last), and surfaces the last error. -/
theorem safeCallLoop_retryable_all (base : ℚ) (oracle : Nat → CallOutcome) :
    ∀ (fuel attempt : Nat) (lastE : Option AwsError),
      1 ≤ fuel →
      (∀ i, i < fuel → ∃ c m, oracle (attempt + i) = .clientError c m ∧ c ∉ nonRetryableCodes) →
      safeCallLoop false base oracle attempt fuel lastE =
        ⟨.error (errOf (oracle (attempt + (fuel - 1)))),
          (List.range (fuel - 1)).map (fun j => base * 2 ^ (attempt + j)), fuel⟩ := by
  intro fuel
  induction fuel with
  | zero =>
    intro attempt lastE h
    exact absurd h (by omega)
  | succ n ih =>
    intro attempt lastE _ hall
    obtain ⟨c, m, hcm, hcnr⟩ := hall 0 (by omega)
    rw [Nat.add_zero] at hcm
    rw [safeCallLoop]
    simp only [Bool.false_eq_true, if_false, hcm, if_neg hcnr]
    cases n with
    | zero => simp [hcm, errOf]
    | succ k =>
      have hall' : ∀ i, i < k + 1 →
          ∃ c' m', oracle (attempt + 1 + i) = .clientError c' m' ∧ c' ∉ nonRetryableCodes := by
        intro i hi
        have := hall (i + 1) (by omega)
        have harith : attempt + (i + 1) = attempt + 1 + i := by omega
        rwa [harith] at this
      rw [if_pos (by omega : 0 < k + 1)]
      rw [ih (attempt + 1) (some (.clientError c m)) (by omega) hall']
      simp only [Nat.add_sub_cancel]
      have harith2 : attempt + 1 + k = attempt + (k + 1) := by omega
      have hfun : (List.range k).map (fun j => base * 2 ^ (attempt + 1 + j)) =
          (List.range k).map ((fun j => base * 2 ^ (attempt + j)) ∘ Nat.succ) := by
        refine List.map_congr_left ?_
        intro j _
        have hj : attempt + 1 + j = attempt + (j + 1) := by omega
        simp [Function.comp, hj]
      rw [harith2, hfun, List.range_succ_eq_map, List.map_cons, List.map_map]
      simp

/-- When every available attempt fails with a non-`ClientError` exception,
the loop consumes every attempt without sleeping at all and surfaces the
last error. -/
theorem safeCallLoop_generic_all (base : ℚ) (oracle : Nat → CallOutcome) :
    ∀ (fuel attempt : Nat) (lastE : Option AwsError),
      1 ≤ fuel →
      (∀ i, i < fuel → ∃ m, oracle (attempt + i) = .genericError m) →
      safeCallLoop false base oracle attempt fuel lastE =
        ⟨.error (errOf (oracle (attempt + (fuel - 1)))), [], fuel⟩ := by
  intro fuel
  induction fuel with
  | zero =>
    intro attempt lastE h
    exact absurd h (by omega)
  | succ n ih =>
    intro attempt lastE _ hall
    obtain ⟨m, hm⟩ := hall 0 (by omega)
    rw [Nat.add_zero] at hm
    rw [safeCallLoop]
    simp only [Bool.false_eq_true, if_false, hm]
    cases n with
    | zero => simp [hm, errOf]
    | succ k =>
      have hall' : ∀ i, i < k + 1 → ∃ m', oracle (attempt + 1 + i) = .genericError m' := by
        intro i hi
        have := hall (i + 1) (by omega)
        have harith : attempt + (i + 1) = attempt + 1 + i := by omega
        rwa [harith] at this
      rw [if_neg (by omega : ¬ (k + 1 = 0))]
      rw [ih (attempt + 1) (some (.genericError m)) (by omega) hall']
      simp only [Nat.add_sub_cancel]
      have harith2 : attempt + 1 + k = attempt + (k + 1) := by omega
      rw [harith2]

/-- Oracle for the C2 counterexample: every attempt raises a non-`ClientError`
exception (e.g. a connection failure not wrapped by botocore). -/
def c2GenericOracle : Nat → CallOutcome := fun _ => .genericError "connection reset"

/-- Claim C2 counterexample.  A retried sequence of non-`ClientError`
failures with maxAttempts=2, baseDelay=1: the operation is attempted twice
(so attempt 2 happened, i.e. the error was retried), yet the sleeps list is
empty — no delay of baseDelay·2⁰ = 1 was slept before attempt 2, contrary to
the claimed backoff invariant for every retried sequence: the
`except Exception` arm of `safe_call_with_retry` retries without sleeping. -/
theorem c2_counterexample :
    safeCallWithRetry false 2 1 c2GenericOracle =
      ⟨.error (.genericError "connection reset"), [], 2⟩ := by
  decide

/-- Claim C2 (corrected).  Amended: the operation is attempted at most
maxAttempts times; a non-retryable `ClientError` (AccessDenied,
ValidationError, InvalidParameter) on the first attempt is raised after
exactly one attempt with no sleep; a sequence of retryable `ClientError`
failures is retried until attempts are exhausted with the claimed schedule —
the delay slept before attempt k (k ≥ 2) is baseDelay · 2^(k-2), i.e. entry
j of the sleeps list is baseDelay · 2^j — and the last error is surfaced;
but a sequence of failures that are not `ClientError`s is retried with no
sleep at all (and its last error surfaced), so the backoff invariant holds
only for the retryable `ClientError` class. -/
theorem c2_amended_retry_policy (maxAttempts : Nat) (base : ℚ) (oracle : Nat → CallOutcome)
    (c m : String) (hmax : 1 ≤ maxAttempts) :
    (safeCallWithRetry false maxAttempts base oracle).attempts ≤ maxAttempts ∧
    (oracle 0 = .clientError c m → c ∈ nonRetryableCodes →
      safeCallWithRetry false maxAttempts base oracle = ⟨.error (.clientError c m), [], 1⟩) ∧
    ((∀ i, i < maxAttempts → ∃ c' m', oracle i = .clientError c' m' ∧ c' ∉ nonRetryableCodes) →
      safeCallWithRetry false maxAttempts base oracle =
        ⟨.error (errOf (oracle (maxAttempts - 1))),
          (List.range (maxAttempts - 1)).map (fun j => base * 2 ^ j), maxAttempts⟩) ∧
    ((∀ i, i < maxAttempts → ∃ m', oracle i = .genericError m') →
      safeCallWithRetry false maxAttempts base oracle =
        ⟨.error (errOf (oracle (maxAttempts - 1))), [], maxAttempts⟩) := by
  refine ⟨safeCallLoop_attempts_le false base oracle maxAttempts 0 none, ?_, ?_, ?_⟩
  · intro h0 hc
    match maxAttempts, hmax with
    | n + 1, _ =>
      rw [safeCallWithRetry, safeCallLoop]
      simp [h0, hc]
  · intro hall
    have h := safeCallLoop_retryable_all base oracle maxAttempts 0 none hmax
      (by simpa using hall)
    rw [safeCallWithRetry, h]
    simp
  · intro hall
    have h := safeCallLoop_generic_all base oracle maxAttempts 0 none hmax
      (by simpa using hall)
    rw [safeCallWithRetry, h]
    simp

/-- Oracle for the C2 witness: every attempt is throttled (retryable). -/
def c2ThrottleOracle : Nat → CallOutcome := fun _ => .clientError "Throttling" "rate exceeded"

/-- Oracle for the C2 witness: the first attempt is denied (non-retryable). -/
def c2DeniedOracle : Nat → CallOutcome := fun _ => .clientError "AccessDenied" "denied"

/-- Witness for C2: with maxAttempts=3 and baseDelay=1, a throttled call is
attempted 3 times with sleeps [1, 2] and surfaces the last throttle, while an
AccessDenied call is attempted once with no sleep. -/
theorem c2_witness :
    (safeCallWithRetry false 3 1 c2ThrottleOracle).attempts ≤ 3 ∧
    safeCallWithRetry false 3 1 c2ThrottleOracle =
      ⟨.error (.clientError "Throttling" "rate exceeded"), [1, 2], 3⟩ ∧
    safeCallWithRetry false 3 1 c2DeniedOracle =
      ⟨.error (.clientError "AccessDenied" "denied"), [], 1⟩ := by
  have h := c2_amended_retry_policy 3 1 c2ThrottleOracle "AccessDenied" "x" (by decide)
  have hd := c2_amended_retry_policy 3 1 c2DeniedOracle "AccessDenied" "denied" (by decide)
  refine ⟨h.1, ?_, hd.2.1 rfl (by decide)⟩
  have h3 := h.2.2.1 (fun i hi => ⟨"Throttling", "rate exceeded", rfl, by decide⟩)
  refine h3.trans ?_
  norm_num [List.range_succ, c2ThrottleOracle, errOf]

end LambdaDeploy
